import Mathlib

/-!
Verification of the real-time health-monitoring pipeline:
the health scorer (`parse_health_data`), the critical-flag update
(`update_animal_status_if_critical`), the fleet data fetcher
(`fetch_active_animals_data`) and the dashboard broadcast loop
(`get_status`), modelled shallowly over rational numbers.

Python floats are modelled as `ℚ`, Python `int` as `ℤ`, `None` as
`Option.none`.  Python `round` is round-half-to-even, modelled by
`rhe` (to an integer) and `roundTo` (to `n` decimal places).
-/

namespace HackNMake

/-- Python `round(q)`: round half to even, to an integer. -/
def rhe (q : ℚ) : ℤ :=
  if q - q.floor < 1/2 then q.floor
  else if (1:ℚ)/2 < q - q.floor then q.floor + 1
  else if q.floor % 2 = 0 then q.floor else q.floor + 1

/-- Python `round(q, n)`: round half to even, to `n` decimal places. -/
def roundTo (n : ℕ) (q : ℚ) : ℚ := (rhe (q * (10:ℚ)^n) : ℚ) / (10:ℚ)^n

/-- The computable `Rat.floor` agrees with `Int.floor`. -/
theorem rat_floor_eq_intFloor (q : ℚ) : q.floor = ⌊q⌋ := by
  rw [Rat.floor_def', Rat.floor_def]

/-- A blood-pressure JSON object as stored in a `Data` record:
a dict that may or may not carry numeric `systolic` / `diastolic`
entries.  `none` at the outer level stands for an absent, null,
non-dict or empty-dict (falsy) value. -/
structure BPDict where
  systolic : Option ℚ := none
  diastolic : Option ℚ := none
deriving DecidableEq, Repr

/-- The averaged blood pressure built by `parse_health_data`
(both components present, each rounded to 1 decimal). -/
structure BPAvg where
  systolic : ℚ
  diastolic : ℚ
deriving DecidableEq, Repr

/-- One row of the `data` table as handed to the scorer / dashboard:
all vitals optional (`src/models/schema/data.py`). -/
structure DataRecord where
  id : Option String := none
  accelerometer : Option String := none
  gyroscrope : Option String := none
  longitude : Option ℚ := none
  latitude : Option ℚ := none
  blood_pressure : Option BPDict := none
  body_temp : Option ℚ := none
  heart_rate : Option ℤ := none
deriving DecidableEq, Repr

/-- The dict returned by `parse_health_data`, together with a flag
recording whether `update_animal_status_if_critical` was invoked
(the function's only side effect). -/
structure HealthAssessment where
  overall_health_percentage : Option ℚ := none
  health_status : Option String := none
  blood_pressure : Option BPAvg := none
  body_temp : Option ℚ := none
  heart_rate : Option ℤ := none
  critical_update_requested : Bool := false
deriving DecidableEq, Repr

/-- `data_records[:5] if len(data_records) >= 5 else data_records`
(data_parser.py line 30). -/
def records_to_analyze (data_records : List DataRecord) : List DataRecord :=
  if 5 ≤ data_records.length then data_records.take 5 else data_records

/-- Collected truthy dict blood pressures of the window (line 40). -/
def blood_pressures (w : List DataRecord) : List BPDict :=
  w.filterMap (·.blood_pressure)

/-- Collected non-null body temperatures of the window (line 44). -/
def body_temps (w : List DataRecord) : List ℚ :=
  w.filterMap (·.body_temp)

/-- Collected non-null heart rates of the window (line 48). -/
def heart_rates (w : List DataRecord) : List ℤ :=
  w.filterMap (·.heart_rate)

/-- Non-null systolic components of the collected blood pressures. -/
def systolic_values (w : List DataRecord) : List ℚ :=
  (blood_pressures w).filterMap (·.systolic)

/-- Non-null diastolic components of the collected blood pressures. -/
def diastolic_values (w : List DataRecord) : List ℚ :=
  (blood_pressures w).filterMap (·.diastolic)

/-- Python `sum(l) / len(l)` on floats. -/
def avg (l : List ℚ) : ℚ := l.sum / l.length

/-- Python `sum(l) / len(l)` on a list of ints (float division). -/
def avgInt (l : List ℤ) : ℚ := (l.sum : ℚ) / l.length

/-- Averaged blood pressure (data_parser.py lines 53-71). -/
def avg_blood_pressure (w : List DataRecord) : Option BPAvg :=
  if blood_pressures w ≠ [] ∧ systolic_values w ≠ [] ∧ diastolic_values w ≠ [] then
    some { systolic := roundTo 1 (avg (systolic_values w)),
           diastolic := roundTo 1 (avg (diastolic_values w)) }
  else none

/-- Averaged body temperature, unrounded (line 74). -/
def avg_body_temp (w : List DataRecord) : Option ℚ :=
  if body_temps w ≠ [] then some (avg (body_temps w)) else none

/-- Averaged heart rate, rounded to the nearest integer (line 77). -/
def avg_heart_rate (w : List DataRecord) : Option ℤ :=
  if heart_rates w ≠ [] then some (rhe (avgInt (heart_rates w))) else none

/-- Blood-pressure banding (data_parser.py lines 88-97). -/
def bp_score (systolic diastolic : ℚ) : ℤ :=
  if 90 ≤ systolic ∧ systolic ≤ 120 ∧ 60 ≤ diastolic ∧ diastolic ≤ 80 then 100
  else if (120 < systolic ∧ systolic ≤ 140) ∨ (80 < diastolic ∧ diastolic ≤ 90) then 70
  else if 140 < systolic ∨ 90 < diastolic then 30
  else if systolic < 90 ∨ diastolic < 60 then 50
  else 60

/-- Body-temperature banding (lines 102-111). -/
def temp_score (t : ℚ) : ℤ :=
  if 36.5 ≤ t ∧ t ≤ 37.5 then 100
  else if 37.5 < t ∧ t ≤ 38.0 then 70
  else if 38.0 < t then 30
  else if t < 36.5 then 50
  else 60

/-- Heart-rate banding (lines 116-125). -/
def hr_score (h : ℤ) : ℤ :=
  if 60 ≤ h ∧ h ≤ 100 then 100
  else if 100 < h ∧ h ≤ 120 then 70
  else if 120 < h then 30
  else if h < 60 then 50
  else 60

/-- Contribution of blood pressure to the score list (lines 83-98);
the Python truthiness test `if systolic and diastolic` skips a
component averaging to exactly 0. -/
def bp_scores (w : List DataRecord) : List ℤ :=
  match avg_blood_pressure w with
  | some bp => if bp.systolic ≠ 0 ∧ bp.diastolic ≠ 0
               then [bp_score bp.systolic bp.diastolic] else []
  | none => []

/-- Contribution of body temperature to the score list (lines 101-112);
scored on the unrounded average. -/
def temp_scores (w : List DataRecord) : List ℤ :=
  match avg_body_temp w with
  | some t => [temp_score t]
  | none => []

/-- Contribution of heart rate to the score list (lines 115-126);
scored on the rounded average. -/
def hr_scores (w : List DataRecord) : List ℤ :=
  match avg_heart_rate w with
  | some h => [hr_score h]
  | none => []

/-- The `scores` list of `parse_health_data` for a window. -/
def scores (w : List DataRecord) : List ℤ :=
  bp_scores w ++ temp_scores w ++ hr_scores w

/-- Unrounded overall health percentage (line 130). -/
def overall_of (w : List DataRecord) : ℚ :=
  ((scores w).sum : ℚ) / (scores w).length

/-- Status tier from the unrounded percentage (lines 133-138). -/
def healthTier (p : ℚ) : String :=
  if 80 ≤ p then "normal" else if 50 ≤ p then "warning" else "critical"

/-- Python truthiness of the optional `device_id` argument. -/
def device_truthy : Option String → Bool
  | none => false
  | some s => if s = "" then false else true

/-- Shallow embedding of `parse_health_data` (data_parser.py lines
10-156).  The side effect (the call to
`update_animal_status_if_critical`, made exactly when the status is
critical and a truthy device id was supplied) is recorded in the
`critical_update_requested` field. -/
def parse_health_data (data_records : List DataRecord)
    (device_id : Option String) : HealthAssessment :=
  if data_records = [] then {}
  else
    let w := records_to_analyze data_records
    if scores w = [] then {}
    else
      let overall := overall_of w
      let status := healthTier overall
      { overall_health_percentage := some (roundTo 2 overall)
        health_status := some status
        blood_pressure := avg_blood_pressure w
        body_temp := (avg_body_temp w).map (roundTo 1)
        heart_rate := avg_heart_rate w
        critical_update_requested :=
          (if status = "critical" then device_truthy device_id else false) }

/-- One row of the `animal` table (`src/models/schema/animal.py`):
the fields touched by this core. -/
structure Animal where
  id : String
  status : Option String := none
  is_critical : Option Bool := none
deriving DecidableEq, Repr

/-- Setting `is_critical := True` on the first row matching the id,
as `query(...).filter(id == device_id).first()` followed by the
assignment and commit does. -/
def set_critical_first : List Animal → String → List Animal
  | [], _ => []
  | a :: rest, d =>
      if a.id = d then { a with is_critical := some true } :: rest
      else a :: set_critical_first rest d

/-- Shallow embedding of `update_animal_status_if_critical`
(data_parser.py lines 159-199) over a database modelled as a row
list.  Returns the new database and the function's boolean result. -/
def update_animal_status_if_critical (device_id : String)
    (health_status : Option String) (db : List Animal) : List Animal × Bool :=
  if health_status ≠ some "critical" then (db, false)
  else
    match db.find? (fun a => a.id == device_id) with
    | none => (db, false)
    | some _ => (set_critical_first db device_id, true)

/-- The pydantic `AnimalHealthStatus` entry pushed per animal
(animal_health_status.py lines 12-23).  `blood_pressure` is a raw
dict in the initial phase and the averaged dict afterwards, so it is
kept in dict form. -/
structure AnimalHealthStatus where
  id : String
  animal_id : String
  accelerometer : Option String
  gyroscrope : Option String
  longitude : Option ℚ
  latitude : Option ℚ
  blood_pressure : Option BPDict
  body_temp : Option ℚ
  heart_rate : Option ℤ
  overall_health_percentage : Option ℚ := none
  health_status : Option String := none
deriving DecidableEq, Repr

/-- The pydantic `AnimalHealthStatusResponse` frame
(animal_health_status.py lines 26-31). -/
structure AnimalHealthStatusResponse where
  data : List AnimalHealthStatus
  total : ℕ
  total_critical : ℕ
  total_active : ℕ
  total_device : ℕ
deriving DecidableEq, Repr

/-- The loop body of `get_status` for one animal (lines 60-118):
skip an animal with no records, otherwise build the entry from the
latest record plus, after the initial send, the scorer's output. -/
def mkEntry (initial_sent : Bool) (animal_id : String)
    (data_records : List DataRecord) : Option AnimalHealthStatus :=
  match data_records with
  | [] => none
  | latest :: _ =>
    let last_5_records :=
      if 5 ≤ data_records.length then data_records.take 5 else data_records
    if initial_sent then
      let hm := parse_health_data last_5_records (some animal_id)
      some { id := animal_id
             animal_id := animal_id
             accelerometer := latest.accelerometer
             gyroscrope := latest.gyroscrope
             longitude := latest.longitude
             latitude := latest.latitude
             blood_pressure := hm.blood_pressure.map
               (fun bp => { systolic := some bp.systolic, diastolic := some bp.diastolic })
             body_temp := hm.body_temp
             heart_rate := hm.heart_rate
             overall_health_percentage := hm.overall_health_percentage
             health_status := hm.health_status }
    else
      some { id := animal_id
             animal_id := animal_id
             accelerometer := latest.accelerometer
             gyroscrope := latest.gyroscrope
             longitude := latest.longitude
             latitude := latest.latitude
             blood_pressure := latest.blood_pressure
             body_temp := latest.body_temp
             heart_rate := latest.heart_rate
             overall_health_percentage := none
             health_status := none }

/-- One iteration of the `for animal_id, data_records in
animals_data.items()` loop: extend the entry list and move the
`total_critical`, `total_active`, `total_device` counters. -/
def tick_step (initial_sent : Bool)
    (acc : List AnimalHealthStatus × ℕ × ℕ × ℕ)
    (p : String × List DataRecord) : List AnimalHealthStatus × ℕ × ℕ × ℕ :=
  match mkEntry initial_sent p.1 p.2 with
  | none => acc
  | some e =>
      (acc.1 ++ [e],
       acc.2.1 + (if initial_sent = true ∧ e.health_status = some "critical" then 1 else 0),
       acc.2.2.1 + 1,
       acc.2.2.2 + 1)

/-- One tick of the broadcast loop of `get_status`
(animal_health_status.py lines 49-131): the frame built and sent for
a given phase flag and fetched fleet data. -/
def get_status_tick (initial_sent : Bool)
    (animals_data : List (String × List DataRecord)) : AnimalHealthStatusResponse :=
  let acc := animals_data.foldl (tick_step initial_sent) ([], 0, 0, 0)
  { data := acc.1
    total := acc.1.length
    total_critical := acc.2.1
    total_active := acc.2.2.1
    total_device := acc.2.2.2 }

/-- Shallow embedding of `fetch_active_animals_data`
(data_fetcher.py lines 11-69): the Store query outcome is passed in
as an `Except`; on a query failure the function returns the empty
dict instead of raising. -/
def fetch_active_animals_data
    (query_result : Except String (List (String × List DataRecord))) :
    List (String × List DataRecord) :=
  match query_result with
  | .error _ => []
  | .ok d => d

/-- The `while True` loop of `get_status`, run over a finite trace of
fetched fleet data, threading the `initial_sent` flag (set to true
after the first send, lines 141-142). -/
def get_status_run : Bool → List (List (String × List DataRecord)) →
    List AnimalHealthStatusResponse
  | _, [] => []
  | initial_sent, t :: rest => get_status_tick initial_sent t :: get_status_run true rest

/-- A `get_status` connection: `initial_sent` starts false (line 47). -/
def get_status (ticks : List (List (String × List DataRecord))) :
    List AnimalHealthStatusResponse :=
  get_status_run false ticks

/-- JSON values, as far as the dashboard frame needs them. -/
inductive JVal where
  | null : JVal
  | str : String → JVal
  | num : ℚ → JVal
  | int : ℤ → JVal
  | bp : BPDict → JVal

/-- JSON encoding of an optional string. -/
def jOptStr : Option String → JVal
  | none => .null
  | some s => .str s

/-- JSON encoding of an optional float. -/
def jOptNum : Option ℚ → JVal
  | none => .null
  | some q => .num q

/-- JSON encoding of an optional int. -/
def jOptInt : Option ℤ → JVal
  | none => .null
  | some i => .int i

/-- JSON encoding of an optional blood-pressure dict. -/
def jOptBP : Option BPDict → JVal
  | none => .null
  | some b => .bp b

/-- Pydantic `model_dump()` of one `AnimalHealthStatus` entry: the
key/value pairs serialized into the frame sent over the websocket. -/
def model_dump (e : AnimalHealthStatus) : List (String × JVal) :=
  [("id", .str e.id),
   ("animal_id", .str e.animal_id),
   ("accelerometer", jOptStr e.accelerometer),
   ("gyroscrope", jOptStr e.gyroscrope),
   ("longitude", jOptNum e.longitude),
   ("latitude", jOptNum e.latitude),
   ("blood_pressure", jOptBP e.blood_pressure),
   ("body_temp", jOptNum e.body_temp),
   ("heart_rate", jOptInt e.heart_rate),
   ("overall_health_percentage", jOptNum e.overall_health_percentage),
   ("health_status", jOptStr e.health_status)]

/-- The JSON keys of one serialized dashboard entry. -/
def entry_keys (e : AnimalHealthStatus) : List String :=
  (model_dump e).map Prod.fst

/-! ## Helper lemmas about rounding -/

/-- Rounding an integer is the identity. -/
theorem rhe_intCast (m : ℤ) : rhe (m : ℚ) = m := by
  unfold rhe
  rw [rat_floor_eq_intFloor, Int.floor_intCast]
  norm_num

/-- Rounding an integer plus a fraction below one half drops the fraction. -/
theorem rhe_add_small (m : ℤ) (c : ℚ) (h0 : 0 ≤ c) (h1 : c < 1/2) :
    rhe ((m:ℚ) + c) = m := by
  have hf : ((m:ℚ) + c).floor = m := by
    rw [rat_floor_eq_intFloor, Int.floor_eq_iff]
    constructor
    · linarith
    · linarith
  unfold rhe
  rw [hf]
  have hc : (m:ℚ) + c - (m:ℤ) = c := by ring
  rw [hc, if_pos h1]

/-- Rounding an integer plus a fraction above one half rounds up. -/
theorem rhe_add_big (m : ℤ) (c : ℚ) (h0 : 1/2 < c) (h1 : c < 1) :
    rhe ((m:ℚ) + c) = m + 1 := by
  have hf : ((m:ℚ) + c).floor = m := by
    rw [rat_floor_eq_intFloor, Int.floor_eq_iff]
    constructor
    · linarith
    · linarith
  unfold rhe
  rw [hf]
  have hc : (m:ℚ) + c - (m:ℤ) = c := by ring
  rw [hc, if_neg (by linarith), if_pos h0]

/-- Two-decimal rounding of an integer is the identity. -/
theorem roundTo2_intCast (m : ℤ) : roundTo 2 (m : ℚ) = m := by
  unfold roundTo
  have h : (m:ℚ) * (10:ℚ)^2 = ((100*m : ℤ) : ℚ) := by push_cast; ring
  rw [h, rhe_intCast]
  push_cast
  ring

/-- Two-decimal rounding of a half-integer is the identity. -/
theorem roundTo2_half (s : ℤ) : roundTo 2 ((s:ℚ)/2) = (s:ℚ)/2 := by
  unfold roundTo
  have h : (s:ℚ)/2 * (10:ℚ)^2 = ((50*s : ℤ) : ℚ) := by push_cast; ring
  rw [h, rhe_intCast]
  push_cast
  ring

/-- Two-decimal rounding of `k + 1/3`. -/
theorem roundTo2_third_one (k : ℤ) : roundTo 2 ((k:ℚ) + 1/3) = (k:ℚ) + 33/100 := by
  unfold roundTo
  have h : ((k:ℚ) + 1/3) * (10:ℚ)^2 = ((100*k + 33 : ℤ) : ℚ) + 1/3 := by push_cast; ring
  rw [h, rhe_add_small _ _ (by norm_num) (by norm_num)]
  push_cast
  ring

/-- Two-decimal rounding of `k + 2/3`. -/
theorem roundTo2_third_two (k : ℤ) : roundTo 2 ((k:ℚ) + 2/3) = (k:ℚ) + 67/100 := by
  unfold roundTo
  have h : ((k:ℚ) + 2/3) * (10:ℚ)^2 = ((100*k + 66 : ℤ) : ℚ) + 2/3 := by push_cast; ring
  rw [h, rhe_add_big _ _ (by norm_num) (by norm_num)]
  push_cast
  ring

/-- An integer threshold ignores a fractional part below one. -/
theorem int_le_add_frac (t k : ℤ) (c : ℚ) (h0 : 0 ≤ c) (h1 : c < 1) :
    ((t:ℚ) ≤ (k:ℚ) + c) ↔ t ≤ k := by
  constructor
  · intro h
    have h2 : (t:ℚ) < (k:ℚ) + 1 := by linarith
    have h3 : t < k + 1 := by exact_mod_cast h2
    omega
  · intro h
    have h2 : (t:ℚ) ≤ (k:ℚ) := by exact_mod_cast h
    linarith

/-- Status tiers agree whenever both thresholds agree. -/
theorem healthTier_congr (p q : ℚ) (h80 : (80:ℚ) ≤ p ↔ (80:ℚ) ≤ q)
    (h50 : (50:ℚ) ≤ p ↔ (50:ℚ) ≤ q) : healthTier p = healthTier q := by
  unfold healthTier
  by_cases hp : (80:ℚ) ≤ p
  · rw [if_pos hp, if_pos (h80.1 hp)]
  · rw [if_neg hp, if_neg (fun h => hp (h80.2 h))]
    by_cases hq : (50:ℚ) ≤ p
    · rw [if_pos hq, if_pos (h50.1 hq)]
    · rw [if_neg hq, if_neg (fun h => hq (h50.2 h))]

/-- For a mean of at most three integers, the status tier computed on
the two-decimal rounding agrees with the tier on the exact mean. -/
theorem tier_roundTo2_div (s : ℤ) (n : ℕ) (hn : n = 1 ∨ n = 2 ∨ n = 3) :
    healthTier (roundTo 2 ((s:ℚ)/(n:ℚ))) = healthTier ((s:ℚ)/(n:ℚ)) := by
  rcases hn with rfl | rfl | rfl
  · have h : (s:ℚ)/((1:ℕ):ℚ) = (s:ℚ) := by norm_num
    rw [h, roundTo2_intCast]
  · have h : (s:ℚ)/((2:ℕ):ℚ) = (s:ℚ)/2 := by norm_num
    rw [h, roundTo2_half]
  · obtain ⟨k, r, hr, hs⟩ : ∃ k r : ℤ, (r = 0 ∨ r = 1 ∨ r = 2) ∧ s = 3*k + r :=
      ⟨s / 3, s % 3, by omega, by omega⟩
    subst hs
    rcases hr with rfl | rfl | rfl
    · have h : ((3*k+0 : ℤ):ℚ)/((3:ℕ):ℚ) = ((k:ℤ):ℚ) := by push_cast; ring
      rw [h, roundTo2_intCast]
    · have h : ((3*k+1 : ℤ):ℚ)/((3:ℕ):ℚ) = (k:ℚ) + 1/3 := by push_cast; ring
      rw [h, roundTo2_third_one]
      apply healthTier_congr
      · rw [show (80:ℚ) = ((80:ℤ):ℚ) by norm_num,
            int_le_add_frac 80 k (33/100) (by norm_num) (by norm_num),
            int_le_add_frac 80 k (1/3) (by norm_num) (by norm_num)]
      · rw [show (50:ℚ) = ((50:ℤ):ℚ) by norm_num,
            int_le_add_frac 50 k (33/100) (by norm_num) (by norm_num),
            int_le_add_frac 50 k (1/3) (by norm_num) (by norm_num)]
    · have h : ((3*k+2 : ℤ):ℚ)/((3:ℕ):ℚ) = (k:ℚ) + 2/3 := by push_cast; ring
      rw [h, roundTo2_third_two]
      apply healthTier_congr
      · rw [show (80:ℚ) = ((80:ℤ):ℚ) by norm_num,
            int_le_add_frac 80 k (67/100) (by norm_num) (by norm_num),
            int_le_add_frac 80 k (2/3) (by norm_num) (by norm_num)]
      · rw [show (50:ℚ) = ((50:ℤ):ℚ) by norm_num,
            int_le_add_frac 50 k (67/100) (by norm_num) (by norm_num),
            int_le_add_frac 50 k (2/3) (by norm_num) (by norm_num)]

/-! ## Helper lemmas about the scoring window -/

/-- Taking the window twice is the same as taking it once. -/
theorem records_to_analyze_idem (l : List DataRecord) :
    records_to_analyze (records_to_analyze l) = records_to_analyze l := by
  by_cases h : 5 ≤ l.length
  · simp [records_to_analyze, h, List.length_take, List.take_take]
  · simp [records_to_analyze, h]

/-- The window is empty exactly when the input is. -/
theorem records_to_analyze_nil_iff (l : List DataRecord) :
    records_to_analyze l = [] ↔ l = [] := by
  unfold records_to_analyze
  by_cases h : 5 ≤ l.length
  · rw [if_pos h, List.take_eq_nil_iff]
    constructor
    · rintro (h5 | hl)
      · omega
      · exact hl
    · intro hl
      exact Or.inr hl
  · rw [if_neg h]

/-- The window is the first `min 5 len` records. -/
theorem records_to_analyze_eq_take_min (l : List DataRecord) :
    records_to_analyze l = l.take (min 5 l.length) := by
  by_cases h : 5 ≤ l.length
  · rw [records_to_analyze, if_pos h, min_eq_left h]
  · rw [records_to_analyze, if_neg h, min_eq_right (by omega), List.take_length]

/-- The scorer depends on its input only through the window. -/
theorem parse_health_data_window (l : List DataRecord) (device_id : Option String) :
    parse_health_data l device_id
      = parse_health_data (records_to_analyze l) device_id := by
  by_cases hl : l = []
  · subst hl
    rfl
  · have h2 : records_to_analyze l ≠ [] := by
      rw [Ne, records_to_analyze_nil_iff]
      exact hl
    simp only [parse_health_data, if_neg hl, if_neg h2, records_to_analyze_idem]

/-! ## C2 -/

/-- C2: for every window whose averaged heart rate (rounded to the
nearest integer) is `h`, the heart-rate metric contributes the score
`hr_score h`, which is exactly 100 on `[60,100]`, 70 on `(100,120]`,
30 on `(120,∞)` and 50 on `(-∞,60)`, with the boundaries 120 and 121
falling as stated. -/
theorem C2_heart_rate_bands (w : List DataRecord) (h : ℤ)
    (hh : avg_heart_rate w = some h) :
    hr_scores w = [hr_score h]
    ∧ (60 ≤ h ∧ h ≤ 100 → hr_score h = 100)
    ∧ (100 < h ∧ h ≤ 120 → hr_score h = 70)
    ∧ (120 < h → hr_score h = 30)
    ∧ (h < 60 → hr_score h = 50)
    ∧ hr_score 120 = 70 ∧ hr_score 121 = 30 := by
  refine ⟨by simp [hr_scores, hh], ?_, ?_, ?_, ?_, by decide, by decide⟩
  all_goals
    intro hc
    simp only [hr_score]
    split_ifs <;> omega

/-- C2 instantiated: a window of one record at 120 bpm averages to
120 and scores 70. -/
theorem C2_heart_rate_bands_witness :
    avg_heart_rate [({ heart_rate := some 120 } : DataRecord)] = some 120
    ∧ hr_scores [({ heart_rate := some 120 } : DataRecord)] = [hr_score 120] :=
  ⟨by with_unfolding_all decide,
   (C2_heart_rate_bands [({ heart_rate := some 120 } : DataRecord)] 120
     (by with_unfolding_all decide)).1⟩

/-! ## C3 -/

/-- C3: on an empty record sequence the scorer returns an assessment
with both the percentage and the status absent, and requests no
critical-flag update. -/
theorem C3_empty_records (device_id : Option String) :
    parse_health_data [] device_id =
      { overall_health_percentage := none, health_status := none,
        blood_pressure := none, body_temp := none, heart_rate := none,
        critical_update_requested := false } := rfl

/-! ## C4 -/

/-- C4: the averaging window is exactly the first `min 5 len` records,
and the scorer's output is unchanged by dropping everything after it. -/
theorem C4_window (records : List DataRecord) (device_id : Option String) :
    records_to_analyze records = records.take (min 5 records.length)
    ∧ parse_health_data records device_id
        = parse_health_data (records.take (min 5 records.length)) device_id := by
  refine ⟨records_to_analyze_eq_take_min records, ?_⟩
  rw [← records_to_analyze_eq_take_min]
  exact parse_health_data_window records device_id

/-! ## C7 -/

/-- C7: a Store query failure makes the fetcher return the empty
fleet dict, and the snapshot built from it has no entries and all
counters zero instead of an exception reaching the loop. -/
theorem C7_store_failure_empty (err : String) (initial_sent : Bool) :
    fetch_active_animals_data (Except.error err) = []
    ∧ get_status_tick initial_sent (fetch_active_animals_data (Except.error err))
      = { data := [], total := 0, total_critical := 0, total_active := 0,
          total_device := 0 } :=
  ⟨rfl, rfl⟩

/-! ## C8 -/

/-- Processing a device with an empty record list leaves the loop
state untouched. -/
theorem tick_step_empty (b : Bool) (acc : List AnimalHealthStatus × ℕ × ℕ × ℕ)
    (d : String) : tick_step b acc (d, []) = acc := rfl

/-- C8: an active device with zero stored records contributes no
entry and no count to any aggregate counter: the snapshot is the one
built without it. -/
theorem C8_zero_records_excluded (initial_sent : Bool) (d : String)
    (pre post : List (String × List DataRecord)) :
    get_status_tick initial_sent (pre ++ (d, []) :: post)
      = get_status_tick initial_sent (pre ++ post) := by
  unfold get_status_tick
  rw [List.foldl_append, List.foldl_cons, tick_step_empty, ← List.foldl_append]

/-! ## C10 -/

/-- Loop invariant: the entry list and the active/device counters
grow in lockstep, and the critical counter by at most as much. -/
theorem tick_fold_counts (b : Bool) (l : List (String × List DataRecord)) :
    ∀ acc : List AnimalHealthStatus × ℕ × ℕ × ℕ,
    ∃ k : ℕ,
      (l.foldl (tick_step b) acc).1.length = acc.1.length + k
      ∧ (l.foldl (tick_step b) acc).2.1 ≤ acc.2.1 + k
      ∧ (l.foldl (tick_step b) acc).2.2.1 = acc.2.2.1 + k
      ∧ (l.foldl (tick_step b) acc).2.2.2 = acc.2.2.2 + k := by
  induction l with
  | nil =>
    intro acc
    exact ⟨0, by simp⟩
  | cons p rest ih =>
    intro acc
    rw [List.foldl_cons]
    rcases hm : mkEntry b p.1 p.2 with _ | e
    · have hstep : tick_step b acc p = acc := by simp [tick_step, hm]
      rw [hstep]
      exact ih acc
    · have hstep : tick_step b acc p
          = (acc.1 ++ [e],
             acc.2.1 + (if b = true ∧ e.health_status = some "critical" then 1 else 0),
             acc.2.2.1 + 1, acc.2.2.2 + 1) := by simp [tick_step, hm]
      rw [hstep]
      obtain ⟨k, h1, h2, h3, h4⟩ := ih (acc.1 ++ [e],
        acc.2.1 + (if b = true ∧ e.health_status = some "critical" then 1 else 0),
        acc.2.2.1 + 1, acc.2.2.2 + 1)
      have hc : (if b = true ∧ e.health_status = some "critical" then 1 else 0) ≤ 1 := by
        split_ifs <;> omega
      refine ⟨k + 1, ?_, ?_, ?_, ?_⟩ <;>
        simp only [List.length_append, List.length_cons, List.length_nil]
          at h1 h2 h3 h4 ⊢ <;> omega

/-- C10: in every frame, `total`, `total_active` and `total_device`
all equal the number of entries in `data`, and `total_critical` is at
most that number. -/
theorem C10_counters (initial_sent : Bool)
    (animals_data : List (String × List DataRecord)) :
    (get_status_tick initial_sent animals_data).total
        = (get_status_tick initial_sent animals_data).data.length
    ∧ (get_status_tick initial_sent animals_data).total_active
        = (get_status_tick initial_sent animals_data).data.length
    ∧ (get_status_tick initial_sent animals_data).total_device
        = (get_status_tick initial_sent animals_data).data.length
    ∧ (get_status_tick initial_sent animals_data).total_critical
        ≤ (get_status_tick initial_sent animals_data).data.length := by
  obtain ⟨k, h1, h2, h3, h4⟩ :=
    tick_fold_counts initial_sent animals_data ([], 0, 0, 0)
  simp only [get_status_tick]
  simp only [List.length_nil, Nat.zero_add] at h1 h2 h3 h4
  exact ⟨trivial, by omega, by omega, by omega⟩

/-! ## C5 -/

/-- Raising the flag on the first matching row commutes with a
subsequent lookup by the same id. -/
theorem find?_set_critical_first (db : List Animal) (d : String) :
    (set_critical_first db d).find? (fun a => a.id == d)
      = (db.find? (fun a => a.id == d)).map
          (fun a => { a with is_critical := some true }) := by
  induction db with
  | nil => rfl
  | cons a rest ih =>
    by_cases hid : a.id = d
    · simp [set_critical_first, hid]
    · simp [set_critical_first, hid, ih]

/-- Raising the flag twice is the same as raising it once. -/
theorem set_critical_first_idem (db : List Animal) (d : String) :
    set_critical_first (set_critical_first db d) d = set_critical_first db d := by
  induction db with
  | nil => rfl
  | cons a rest ih =>
    by_cases hid : a.id = d
    · simp [set_critical_first, hid]
    · simp [set_critical_first, hid, ih]

/-- Raising the flag preserves every row's id and status and only
ever moves `is_critical` to `some true`. -/
theorem set_critical_first_forall (db : List Animal) (d : String) :
    List.Forall₂ (fun a b => b.id = a.id ∧ b.status = a.status ∧
        (b.is_critical = a.is_critical ∨ b.is_critical = some true))
      db (set_critical_first db d) := by
  induction db with
  | nil => exact List.Forall₂.nil
  | cons a rest ih =>
    by_cases hid : a.id = d
    · rw [set_critical_first, if_pos hid]
      refine List.Forall₂.cons ⟨rfl, rfl, Or.inr rfl⟩ ?_
      rw [List.forall₂_same]
      intro x _
      exact ⟨rfl, rfl, Or.inl rfl⟩
    · rw [set_critical_first, if_neg hid]
      exact List.Forall₂.cons ⟨rfl, rfl, Or.inl rfl⟩ ih

/-- C5: with status critical and a device identity supplied, the
update sets `is_critical` of the matching row to true; calling it a
second time changes nothing and raises no error; for every status
input it never touches any row's id or `status` field and never moves
`is_critical` anywhere but to true. -/
theorem C5_critical_flag_update (db : List Animal) (device_id : String) :
    (∀ a, ((update_animal_status_if_critical device_id (some "critical") db).1.find?
            (fun x => x.id == device_id)) = some a → a.is_critical = some true)
    ∧ update_animal_status_if_critical device_id (some "critical")
        (update_animal_status_if_critical device_id (some "critical") db).1
      = update_animal_status_if_critical device_id (some "critical") db
    ∧ (∀ health_status, List.Forall₂ (fun a b => b.id = a.id ∧ b.status = a.status ∧
          (b.is_critical = a.is_critical ∨ b.is_critical = some true))
        db (update_animal_status_if_critical device_id health_status db).1) := by
  refine ⟨?_, ?_, ?_⟩
  · intro a ha
    rcases hfind : db.find? (fun x => x.id == device_id) with _ | a0
    · simp [update_animal_status_if_critical, hfind] at ha
    · simp [update_animal_status_if_critical, hfind, find?_set_critical_first] at ha
      subst ha
      rfl
  · rcases hfind : db.find? (fun x => x.id == device_id) with _ | a0
    · simp [update_animal_status_if_critical, hfind]
    · simp [update_animal_status_if_critical, hfind, find?_set_critical_first,
        set_critical_first_idem]
  · intro health_status
    by_cases hs : health_status = some "critical"
    · subst hs
      rcases hfind : db.find? (fun x => x.id == device_id) with _ | a0
      · rw [update_animal_status_if_critical, if_neg (by simp), hfind]
        rw [List.forall₂_same]
        intro x _
        exact ⟨rfl, rfl, Or.inl rfl⟩
      · rw [update_animal_status_if_critical, if_neg (by simp), hfind]
        exact set_critical_first_forall db device_id
    · rw [update_animal_status_if_critical, if_pos hs]
      rw [List.forall₂_same]
      intro x _
      exact ⟨rfl, rfl, Or.inl rfl⟩

/-- C5 instantiated: a one-row database in which the device is found,
flagged, and reported critical. -/
theorem C5_critical_flag_update_witness :
    ((update_animal_status_if_critical "dev" (some "critical")
        [({ id := "dev", status := some "active", is_critical := some false } : Animal)]).1.find?
        (fun x => x.id == "dev"))
      = some { id := "dev", status := some "active", is_critical := some true }
    ∧ ({ id := "dev", status := some "active", is_critical := some true } : Animal).is_critical
      = some true :=
  ⟨by decide,
   (C5_critical_flag_update
      [({ id := "dev", status := some "active", is_critical := some false } : Animal)]
      "dev").1
     { id := "dev", status := some "active", is_critical := some true }
     (by decide)⟩

/-! ## C6 -/

/-- A record of a device reporting only a 180 bpm heart rate. -/
def c6_record : DataRecord := { heart_rate := some 180 }

/-- A two-tick trace: the fleet is empty on the first tick, and the
newly-active device `b` (with stored history) appears on the second. -/
def c6_ticks : List (List (String × List DataRecord)) :=
  [[], [("b", [c6_record])]]

/-- C6 counterexample: device `b` becomes active only after the
connection's first tick, so the first broadcast tick that reports it
is the second tick of the trace — and that tick already reports the
computed values `30.0` / `"critical"`, not null health fields.  The
initial null phase is keyed to the connection, not to the device. -/
theorem C6_counterexample :
    (get_status c6_ticks).map
        (fun r => r.data.map
          (fun e => (e.animal_id, e.overall_health_percentage, e.health_status)))
      = [[], [("b", some 30, some "critical")]] := by
  with_unfolding_all decide

/-- An entry built in the initial phase has null health fields. -/
theorem mkEntry_false_health (animal_id : String) (data_records : List DataRecord)
    (e : AnimalHealthStatus) (he : mkEntry false animal_id data_records = some e) :
    e.overall_health_percentage = none ∧ e.health_status = none := by
  cases data_records with
  | nil => simp [mkEntry] at he
  | cons latest rest =>
    simp only [mkEntry, Bool.false_eq_true, if_false, Option.some.injEq] at he
    subst he
    exact ⟨rfl, rfl⟩

/-- Every entry accumulated by the initial-phase loop has null health
fields, provided the accumulator started that way. -/
theorem tick_entries_false_health (l : List (String × List DataRecord)) :
    ∀ acc : List AnimalHealthStatus × ℕ × ℕ × ℕ,
    (∀ e ∈ acc.1, e.overall_health_percentage = none ∧ e.health_status = none) →
    ∀ e ∈ (l.foldl (tick_step false) acc).1,
      e.overall_health_percentage = none ∧ e.health_status = none := by
  induction l with
  | nil =>
    intro acc hacc
    simpa using hacc
  | cons p rest ih =>
    intro acc hacc
    rw [List.foldl_cons]
    apply ih
    rcases hm : mkEntry false p.1 p.2 with _ | e0
    · have hstep : tick_step false acc p = acc := by simp [tick_step, hm]
      rw [hstep]
      exact hacc
    · have hstep : (tick_step false acc p).1 = acc.1 ++ [e0] := by simp [tick_step, hm]
      intro e he
      rw [hstep] at he
      rcases List.mem_append.1 he with h | h
      · exact hacc e h
      · rw [List.mem_singleton] at h
        subst h
        exact mkEntry_false_health p.1 p.2 e hm

/-- C6 amended: on each dashboard connection, every entry of the
first broadcast tick has null health fields regardless of stored
history; a device first reported on a later tick (such as a device
activated mid-connection) is scored immediately on that tick. -/
theorem C6_amended_first_tick_null (first : List (String × List DataRecord))
    (rest : List (List (String × List DataRecord))) :
    (get_status (first :: rest)).head? = some (get_status_tick false first)
    ∧ ∀ e ∈ (get_status_tick false first).data,
        e.overall_health_percentage = none ∧ e.health_status = none := by
  refine ⟨rfl, ?_⟩
  intro e he
  exact tick_entries_false_health first ([], 0, 0, 0) (by simp) e he

/-- The entry the initial tick produces for device `a` holding the
`c6_record` history. -/
def c6_first_entry : AnimalHealthStatus :=
  { id := "a", animal_id := "a", accelerometer := none, gyroscrope := none,
    longitude := none, latitude := none, blood_pressure := none,
    body_temp := none, heart_rate := some 180,
    overall_health_percentage := none, health_status := none }

/-- C6 amended, instantiated on a one-device fleet. -/
theorem C6_amended_first_tick_null_witness :
    c6_first_entry ∈ (get_status_tick false [("a", [c6_record])]).data
    ∧ (c6_first_entry.overall_health_percentage = none
       ∧ c6_first_entry.health_status = none) :=
  ⟨by with_unfolding_all decide,
   (C6_amended_first_tick_null [("a", [c6_record])] []).2 c6_first_entry
     (by with_unfolding_all decide)⟩

/-! ## C9 -/

/-- C9 counterexample: the serialized keys of the entry actually
pushed for a concrete device are `animal_id` and the misspelled
`gyroscrope`, and neither `device_id` nor `gyroscope` occurs among
them. -/
theorem C9_counterexample :
    ((get_status_tick false [("a", [c6_record])]).data.map entry_keys)
      = [["id", "animal_id", "accelerometer", "gyroscrope", "longitude",
          "latitude", "blood_pressure", "body_temp", "heart_rate",
          "overall_health_percentage", "health_status"]]
    ∧ "device_id" ∉ (["id", "animal_id", "accelerometer", "gyroscrope",
          "longitude", "latitude", "blood_pressure", "body_temp", "heart_rate",
          "overall_health_percentage", "health_status"] : List String)
    ∧ "gyroscope" ∉ (["id", "animal_id", "accelerometer", "gyroscrope",
          "longitude", "latitude", "blood_pressure", "body_temp", "heart_rate",
          "overall_health_percentage", "health_status"] : List String) :=
  ⟨by with_unfolding_all decide, by decide, by decide⟩

/-- C9 amended: every entry pushed to a dashboard observer carries
exactly the fields `id`, `animal_id`, `accelerometer`, `gyroscrope`
(the code's legacy misspelling), `longitude`, `latitude`,
`blood_pressure`, `body_temp`, `heart_rate`,
`overall_health_percentage` and `health_status`, under those names. -/
theorem C9_amended_entry_keys (initial_sent : Bool)
    (animals_data : List (String × List DataRecord)) (e : AnimalHealthStatus)
    (_he : e ∈ (get_status_tick initial_sent animals_data).data) :
    entry_keys e
      = ["id", "animal_id", "accelerometer", "gyroscrope", "longitude",
         "latitude", "blood_pressure", "body_temp", "heart_rate",
         "overall_health_percentage", "health_status"] := rfl

/-- C9 amended, instantiated on a concrete pushed entry. -/
theorem C9_amended_entry_keys_witness :
    c6_first_entry ∈ (get_status_tick false [("a", [c6_record])]).data
    ∧ entry_keys c6_first_entry
      = ["id", "animal_id", "accelerometer", "gyroscrope", "longitude",
         "latitude", "blood_pressure", "body_temp", "heart_rate",
         "overall_health_percentage", "health_status"] :=
  ⟨by with_unfolding_all decide,
   C9_amended_entry_keys false [("a", [c6_record])] c6_first_entry
     (by with_unfolding_all decide)⟩

/-! ## C1 -/

/-- Blood pressure contributes at most one score. -/
theorem bp_scores_length (w : List DataRecord) : (bp_scores w).length ≤ 1 := by
  rcases h : avg_blood_pressure w with _ | bp
  · simp [bp_scores, h]
  · simp only [bp_scores, h]
    split_ifs <;> simp

/-- Body temperature contributes at most one score. -/
theorem temp_scores_length (w : List DataRecord) : (temp_scores w).length ≤ 1 := by
  rcases h : avg_body_temp w with _ | t <;> simp [temp_scores, h]

/-- Heart rate contributes at most one score. -/
theorem hr_scores_length (w : List DataRecord) : (hr_scores w).length ≤ 1 := by
  rcases h : avg_heart_rate w with _ | hr <;> simp [hr_scores, h]

/-- C1: when at least one metric of the window is scorable, the
reported percentage is the unweighted arithmetic mean of the computed
per-metric scores rounded to two decimals, and the status is the tier
of that percentage (`normal` at ≥ 80, `warning` at ≥ 50, `critical`
below); when no metric is scorable, both outputs are absent. -/
theorem C1_overall_and_tier (records : List DataRecord) (device_id : Option String) :
    (scores (records_to_analyze records) ≠ [] →
      (parse_health_data records device_id).overall_health_percentage
        = some (roundTo 2 (((scores (records_to_analyze records)).sum : ℚ)
            / ((scores (records_to_analyze records)).length : ℚ)))
      ∧ (parse_health_data records device_id).health_status
        = some (healthTier (roundTo 2 (((scores (records_to_analyze records)).sum : ℚ)
            / ((scores (records_to_analyze records)).length : ℚ)))))
    ∧ (scores (records_to_analyze records) = [] →
      (parse_health_data records device_id).overall_health_percentage = none
      ∧ (parse_health_data records device_id).health_status = none) := by
  constructor
  · intro hsc
    have hrec : records ≠ [] := by
      intro h
      subst h
      exact hsc rfl
    have h1 := bp_scores_length (records_to_analyze records)
    have h2 := temp_scores_length (records_to_analyze records)
    have h3 := hr_scores_length (records_to_analyze records)
    have hlen : (scores (records_to_analyze records)).length
        = (bp_scores (records_to_analyze records)).length
          + ((temp_scores (records_to_analyze records)).length
             + (hr_scores (records_to_analyze records)).length) := by
      simp [scores]
    have hpos : (scores (records_to_analyze records)).length ≠ 0 := by
      simpa [List.length_eq_zero] using hsc
    have hn : (scores (records_to_analyze records)).length = 1
        ∨ (scores (records_to_analyze records)).length = 2
        ∨ (scores (records_to_analyze records)).length = 3 := by omega
    constructor
    · simp only [parse_health_data, if_neg hrec, if_neg hsc]
      rfl
    · simp only [parse_health_data, if_neg hrec, if_neg hsc]
      rw [tier_roundTo2_div (scores (records_to_analyze records)).sum
            (scores (records_to_analyze records)).length hn]
      rfl
  · intro hsc
    by_cases hrec : records = []
    · subst hrec
      exact ⟨rfl, rfl⟩
    · simp only [parse_health_data, if_neg hrec, if_pos hsc]
      exact ⟨trivial, trivial⟩

/-- A record with a single in-band heart rate. -/
def c1_record : DataRecord := { heart_rate := some 72 }

/-- C1 instantiated: one 72 bpm record yields one score, and the
reported percentage and status follow the rounded mean. -/
theorem C1_overall_and_tier_witness :
    scores (records_to_analyze [c1_record]) ≠ []
    ∧ ((parse_health_data [c1_record] none).overall_health_percentage
        = some (roundTo 2 (((scores (records_to_analyze [c1_record])).sum : ℚ)
            / ((scores (records_to_analyze [c1_record])).length : ℚ)))
      ∧ (parse_health_data [c1_record] none).health_status
        = some (healthTier (roundTo 2 (((scores (records_to_analyze [c1_record])).sum : ℚ)
            / ((scores (records_to_analyze [c1_record])).length : ℚ))))) :=
  ⟨by with_unfolding_all decide,
   (C1_overall_and_tier [c1_record] none).1 (by with_unfolding_all decide)⟩

end HackNMake
